import Mathlib

/-!
Lifecycle of the PowerVR DRM/PCI module glue: a shallow embedding of
`drivers/staging/imgtec/rogue/drm_pci_module.c`.

* The two file-scope flags `bCalledSysInit` and `bDriverProbeSucceeded`, the
  global `gpsPVRLDMDev` and the reference count of `THIS_MODULE` are fields of
  an explicit `State`.
* Every function of the file is a Lean function on `State`.  The functions it
  calls but does not define (the services layer, the DRM/PCI framework, the
  module loader) are collaborators: what they return is an argument of the
  embedded function, and every invocation is appended to `State.trace`, so
  that "is invoked", "exactly once" and "in this order" are statements about
  that list.
* The framework calls back into the file while some collaborators run
  (`drm_pci_init` probes devices, `drm_pci_exit` removes them, the driver load
  and unload hooks reach the exported wrappers); these calls are part of the
  outcome of the collaborator and are run on the state in the order given.
* The preprocessor switches `SUPPORT_DRM_EXT` and `PDUMP`, and the constants
  that come from headers outside the file, are fields of `Build`.
-/

namespace DrmPciModule

/-- A C pointer, as an address; `NULL` is address `0`. -/
abbrev Ptr := Nat

/-- The null pointer. -/
def NULL : Ptr := 0

/-- What the preprocessor and the included headers fix for one build of the
file: the two switches the file tests with `#if defined`, the errno values
`ENODEV` and `ENOENT`, the services status `PVRSRV_OK`, and the accessor
`PVR_FILE_FROM_DRM_FILE`.  None of them is defined in the file itself. -/
structure Build where
  SUPPORT_DRM_EXT : Bool
  PDUMP : Bool
  ENODEV : Int
  ENOENT : Int
  PVRSRV_OK : Int
  PVR_FILE_FROM_DRM_FILE : Ptr → Ptr

/-- One invocation of a collaborator, with the arguments the file passes and,
for a collaborator whose result the file reads, the value it returned. -/
inductive Event where
  | PVRSRVInit (pDevice : Ptr) (ret : Int)
  | PVRSRVDeInit (pDevice : Ptr)
  | drm_get_pci_dev (pDevice : Ptr) (pID : Ptr) (ret : Int)
  | drm_put_dev (pDevice : Ptr)
  | try_module_get (ok : Bool)
  | module_put
  | PVRSRVCommonOpen (pFile : Ptr) (ret : Int)
  | PVRSRVCommonRelease (pFile : Ptr)
  | dbgdrv_init (ret : Int)
  | PVRSRVDriverInit (ret : Int)
  | drm_pci_init (ret : Int)
  | PVRSRVDeviceInit (ret : Int)
  | PVRSRVDeviceDeinit
  | drm_pci_exit
  | pci_unregister_driver
  | PVRSRVDriverDeinit
  | dbgdrv_cleanup
  deriving DecidableEq

/-- The mutable state the file works on.  `refcnt` is the number of references
on `THIS_MODULE` held through this file: those its `try_module_get` calls took
and its `module_put` calls have not dropped.  `trace` is the log of
collaborator invocations, oldest first. -/
structure State where
  bCalledSysInit : Bool
  bDriverProbeSucceeded : Bool
  gpsPVRLDMDev : Ptr
  refcnt : Int
  trace : List Event
  deriving DecidableEq

/-- The state when the module has just been loaded: both flags hold their
initialisers `IMG_FALSE`, no device is recorded, no session holds a reference
and no collaborator has been called. -/
def loadState : State :=
  { bCalledSysInit := false, bDriverProbeSucceeded := false, gpsPVRLDMDev := NULL,
    refcnt := 0, trace := [] }

/-- Log one collaborator invocation. -/
def State.emit (s : State) (e : Event) : State :=
  { s with trace := s.trace ++ [e] }

/-- The part of `struct drm_device` the file reads. -/
structure drm_device where
  pdev : Ptr
  deriving DecidableEq

/-- Embedding of `PVRSRVSystemInit` (lines 129-148).  `initRet` is what `PVRSRVInit`
returns if it is called. -/
def PVRSRVSystemInit (B : Build) (pDrmDevice : drm_device) (initRet : Int) (s : State) :
    Int × State :=
  let pDevice := pDrmDevice.pdev
  if s.bCalledSysInit = false then
    let s := { s with gpsPVRLDMDev := pDevice }
    let s := { s with bCalledSysInit := true }
    let s := s.emit (.PVRSRVInit pDevice initRet)
    if initRet ≠ B.PVRSRV_OK then
      (-B.ENODEV, s)
    else
      (0, s)
  else
    (0, s)

/-- Embedding of `PVRSRVSystemDeInit` (lines 163-170). -/
def PVRSRVSystemDeInit (pDevice : Ptr) (s : State) : State :=
  let s := s.emit (.PVRSRVDeInit pDevice)
  { s with gpsPVRLDMDev := NULL }

/-- A call of one of the two exported wrappers, with the outcome of the
collaborator it may reach. -/
inductive SysCall where
  | init (pDrmDevice : drm_device) (initRet : Int)
  | deinit (pDevice : Ptr)
  deriving DecidableEq

/-- Run one wrapper call; the integer result of `PVRSRVSystemInit` is what the
caller receives, `PVRSRVSystemDeInit` returns nothing. -/
def sysStep (B : Build) (s : State) : SysCall → State
  | .init d r => (PVRSRVSystemInit B d r s).2
  | .deinit p => PVRSRVSystemDeInit p s

/-- Run a finite sequence of wrapper calls, first call first. -/
def sysRun (B : Build) (s : State) (cs : List SysCall) : State :=
  cs.foldl (sysStep B) s

/-- What `drm_get_pci_dev` does as seen from this file: while it runs, the
framework may call back into the exported wrappers (the driver load hook), and
it returns `ret`. -/
structure GetPciDevOutcome where
  callbacks : List SysCall
  ret : Int
  deriving DecidableEq

/-- What `drm_put_dev` does as seen from this file: while it runs, the
framework may call back into the exported wrappers (the driver unload hook). -/
structure PutDevOutcome where
  callbacks : List SysCall
  deriving DecidableEq

/-- Embedding of `PVRSRVDriverProbe` (lines 186-198).  Without `SUPPORT_DRM_EXT`
the result is that of `drm_get_pci_dev`, during which the framework's
callbacks run; otherwise it stays `0`. -/
def PVRSRVDriverProbe (B : Build) (pDevice : Ptr) (pID : Ptr) (o : GetPciDevOutcome)
    (s : State) : Int × State :=
  let result : Int := 0
  let (result, s) :=
    if B.SUPPORT_DRM_EXT = false then
      (o.ret, sysRun B (s.emit (.drm_get_pci_dev pDevice pID o.ret)) o.callbacks)
    else
      (result, s)
  let s := { s with bDriverProbeSucceeded := decide (result = 0) }
  (result, s)

/-- Embedding of `PVRSRVDriverRemove` (lines 216-225).  `drm_put_dev` is logged with the
PCI device whose driver data it is handed. -/
def PVRSRVDriverRemove (B : Build) (pDevice : Ptr) (o : PutDevOutcome) (s : State) : State :=
  if B.SUPPORT_DRM_EXT = false then
    sysRun B (s.emit (.drm_put_dev pDevice)) o.callbacks
  else
    PVRSRVSystemDeInit pDevice s

/-- Modelled from the spec: the module loader's `try_module_get(THIS_MODULE)`,
which the file calls and does not define.  It attempts to acquire one reference
on the owning module: when it succeeds (`ok`) one reference has been taken,
when the module cannot be pinned it fails and none has. -/
def try_module_get (ok : Bool) (s : State) : Bool × State :=
  let s := s.emit (.try_module_get ok)
  (ok, if ok then { s with refcnt := s.refcnt + 1 } else s)

/-- Modelled from the spec: the module loader's `module_put(THIS_MODULE)`, which
the file calls and does not define.  It releases one reference on the owning
module. -/
def module_put (s : State) : State :=
  let s := s.emit .module_put
  { s with refcnt := s.refcnt - 1 }

/-- Embedding of `PVRSRVOpen` (lines 244-262).  `getOk` is the outcome of `try_module_get`
and `openRet` what `PVRSRVCommonOpen` returns if it is called. -/
def PVRSRVOpen (B : Build) (pDRMFile : Ptr) (getOk : Bool) (openRet : Int) (s : State) :
    Int × State :=
  let pFile := B.PVR_FILE_FROM_DRM_FILE pDRMFile
  let (got, s) := try_module_get getOk s
  if got = false then
    (-B.ENOENT, s)
  else
    let err := openRet
    let s := s.emit (.PVRSRVCommonOpen pFile err)
    let s := if err ≠ 0 then module_put s else s
    (err, s)

/-- Embedding of `PVRSRVRelease` (lines 282-289). -/
def PVRSRVRelease (B : Build) (pDRMFile : Ptr) (s : State) : State :=
  let pFile := B.PVR_FILE_FROM_DRM_FILE pDRMFile
  let s := s.emit (.PVRSRVCommonRelease pFile)
  module_put s

/-- One probe the PCI core makes while the driver is being registered. -/
structure ProbeCall where
  pDevice : Ptr
  pID : Ptr
  outcome : GetPciDevOutcome
  deriving DecidableEq

/-- One removal the PCI core makes while the driver is being deregistered. -/
structure RemoveCall where
  pDevice : Ptr
  outcome : PutDevOutcome
  deriving DecidableEq

/-- The probes of one registration, first probe first; the PCI core consumes
each probe result itself. -/
def runProbes (B : Build) (s : State) (ps : List ProbeCall) : State :=
  ps.foldl (fun s p => (PVRSRVDriverProbe B p.pDevice p.pID p.outcome s).2) s

/-- The removals of one deregistration, first removal first. -/
def runRemoves (B : Build) (s : State) (rs : List RemoveCall) : State :=
  rs.foldl (fun s r => PVRSRVDriverRemove B r.pDevice r.outcome s) s

/-- What the collaborators of `PVRCore_Init` do in one run: the value each
returns if it is called, and the probes `drm_pci_init` triggers while it
registers the driver. -/
structure InitOutcome where
  dbgdrv_init : Int
  PVRSRVDriverInit : Int
  probes : List ProbeCall
  drm_pci_init : Int
  PVRSRVInit : Int
  PVRSRVDeviceInit : Int
  deriving DecidableEq

/-- Where control stands after a block of a C function: the function has
returned `error`, or it goes on with the local `error` live. -/
inductive Flow where
  | returned (error : Int) (s : State)
  | goesOn (error : Int) (s : State)
  deriving DecidableEq

/-- First block of `PVRCore_Init`, lines 318-353: everything before the test of
`bDriverProbeSucceeded` at line 355. -/
def PVRCore_Init_upToAttachCheck (B : Build) (o : InitOutcome) (s : State) : Flow :=
  let error : Int := 0
  let step1 : Flow :=
    if B.PDUMP then
      let error := o.dbgdrv_init
      let s := s.emit (.dbgdrv_init error)
      if error ≠ 0 then .returned error s else .goesOn error s
    else
      .goesOn error s
  match step1 with
  | .returned error s => .returned error s
  | .goesOn _ s =>
    let error := o.PVRSRVDriverInit
    let s := s.emit (.PVRSRVDriverInit error)
    if error ≠ 0 then
      .returned error s
    else if B.SUPPORT_DRM_EXT = false then
      let error := o.drm_pci_init
      let s := runProbes B (s.emit (.drm_pci_init error)) o.probes
      if error ≠ 0 then .returned error s else .goesOn error s
    else if s.bDriverProbeSucceeded = false then
      let error := o.PVRSRVInit
      let s := s.emit (.PVRSRVInit s.gpsPVRLDMDev error)
      if error ≠ 0 then
        .returned error s
      else
        .goesOn error { s with bDriverProbeSucceeded := true }
    else
      .goesOn error s

/-- Embedding of `PVRCore_Init` (lines 312-362): the first block, then the test
of `bDriverProbeSucceeded` and the call of `PVRSRVDeviceInit` (lines 355-361). -/
def PVRCore_Init (B : Build) (o : InitOutcome) (s : State) : Int × State :=
  match PVRCore_Init_upToAttachCheck B o s with
  | .returned error s => (error, s)
  | .goesOn error s =>
    if s.bDriverProbeSucceeded = false then
      (error, s)
    else
      (o.PVRSRVDeviceInit, s.emit (.PVRSRVDeviceInit o.PVRSRVDeviceInit))

/-- What the collaborators of `PVRCore_Cleanup` do in one run: the removals
the PCI core triggers while it deregisters the driver.  None of the calls
yields a value the function reads. -/
structure CleanupOutcome where
  removes : List RemoveCall
  deriving DecidableEq

/-- Embedding of `PVRCore_Cleanup` (lines 385-407).  The function is `void`. -/
def PVRCore_Cleanup (B : Build) (o : CleanupOutcome) (s : State) : State :=
  let s := s.emit .PVRSRVDeviceDeinit
  let s :=
    if B.SUPPORT_DRM_EXT = false then
      runRemoves B (s.emit .drm_pci_exit) o.removes
    else
      runRemoves B (s.emit .pci_unregister_driver) o.removes
  let s := s.emit .PVRSRVDriverDeinit
  let s := if B.PDUMP then s.emit .dbgdrv_cleanup else s
  s

/-- A call of any function the file defines, with the outcomes of the
collaborators it may reach. -/
inductive Op where
  | PVRSRVSystemInit (pDrmDevice : drm_device) (initRet : Int)
  | PVRSRVSystemDeInit (pDevice : Ptr)
  | PVRSRVDriverProbe (pDevice : Ptr) (pID : Ptr) (o : GetPciDevOutcome)
  | PVRSRVDriverRemove (pDevice : Ptr) (o : PutDevOutcome)
  | PVRSRVOpen (pDRMFile : Ptr) (getOk : Bool) (openRet : Int)
  | PVRSRVRelease (pDRMFile : Ptr)
  | PVRCore_Init (o : InitOutcome)
  | PVRCore_Cleanup (o : CleanupOutcome)
  deriving DecidableEq

/-- The state after one call of a function of the file. -/
def opStep (B : Build) (s : State) : Op → State
  | .PVRSRVSystemInit d r => (PVRSRVSystemInit B d r s).2
  | .PVRSRVSystemDeInit p => PVRSRVSystemDeInit p s
  | .PVRSRVDriverProbe p i o => (PVRSRVDriverProbe B p i o s).2
  | .PVRSRVDriverRemove p o => PVRSRVDriverRemove B p o s
  | .PVRSRVOpen f g r => (PVRSRVOpen B f g r s).2
  | .PVRSRVRelease f => PVRSRVRelease B f s
  | .PVRCore_Init o => (PVRCore_Init B o s).2
  | .PVRCore_Cleanup o => PVRCore_Cleanup B o s

/-- The state after a finite sequence of calls, first call first. -/
def opRun (B : Build) (s : State) (ops : List Op) : State :=
  ops.foldl (opStep B) s

/-- Is the event an invocation of `PVRSRVInit`? -/
def Event.isPVRSRVInit : Event → Bool
  | .PVRSRVInit _ _ => true
  | _ => false

/-- Is the event an invocation of `PVRSRVDeviceInit`? -/
def Event.isPVRSRVDeviceInit : Event → Bool
  | .PVRSRVDeviceInit _ => true
  | _ => false

/-- The events logged after `s` on the way to `s'`. -/
def emitted (s s' : State) : List Event :=
  s'.trace.drop s.trace.length

/-- A build of the plain DRM/PCI flavour (neither switch defined) with the
Linux values `ENODEV = 19`, `ENOENT = 2` and `PVRSRV_OK = 0`; used to run the
model on concrete inputs. -/
def plainBuild : Build :=
  { SUPPORT_DRM_EXT := false, PDUMP := false, ENODEV := 19, ENOENT := 2, PVRSRV_OK := 0,
    PVR_FILE_FROM_DRM_FILE := fun p => p }

/-- How many times `PVRSRVInit` has been invoked so far. -/
def initCalls (s : State) : Nat :=
  s.trace.countP Event.isPVRSRVInit

/-- How many times `PVRSRVDeviceInit` has been invoked so far. -/
def deviceInitCalls (s : State) : Nat :=
  s.trace.countP Event.isPVRSRVDeviceInit

/-- Events the exported wrappers log: `PVRSRVInit` and `PVRSRVDeInit`. -/
def Event.isSysEvent : Event → Bool
  | .PVRSRVInit _ _ => true
  | .PVRSRVDeInit _ => true
  | _ => false

/-- Events a probe or a removal can log: those of the wrappers, and the two
framework calls `drm_get_pci_dev` and `drm_put_dev`. -/
def Event.isAttachEvent : Event → Bool
  | .drm_get_pci_dev _ _ _ => true
  | .drm_put_dev _ => true
  | e => e.isSysEvent

/-- The teardown calls `PVRCore_Cleanup` makes itself. -/
def Event.isTeardownStep : Event → Bool
  | .PVRSRVDeviceDeinit => true
  | .drm_pci_exit => true
  | .pci_unregister_driver => true
  | .PVRSRVDriverDeinit => true
  | .dbgdrv_cleanup => true
  | _ => false

/-- The teardown order the specification gives for one build: device
deinitialisation, deregistration from the bus/display framework, services
teardown, and the debug subsystem when it is built in. -/
def teardownPlan (B : Build) : List Event :=
  [.PVRSRVDeviceDeinit,
   if B.SUPPORT_DRM_EXT then .pci_unregister_driver else .drm_pci_exit,
   .PVRSRVDriverDeinit] ++ (if B.PDUMP then [.dbgdrv_cleanup] else [])

/-- The log of `s'` is the log of `s` followed by events that all satisfy `P`. -/
def Grows (P : Event → Prop) (s s' : State) : Prop :=
  ∃ new, s'.trace = s.trace ++ new ∧ ∀ e ∈ new, P e

/-- A call of one of the two session entry points, with the outcomes of the
collaborators `PVRSRVOpen` may reach. -/
inductive SessCall where
  | PVRSRVOpen (pDRMFile : Ptr) (getOk : Bool) (openRet : Int)
  | PVRSRVRelease (pDRMFile : Ptr)
  deriving DecidableEq

/-- Run one session call: what the caller receives (`PVRSRVRelease` is `void`)
and the state afterwards. -/
def sessStep (B : Build) (s : State) : SessCall → Option Int × State
  | .PVRSRVOpen f g r => (some (PVRSRVOpen B f g r s).1, (PVRSRVOpen B f g r s).2)
  | .PVRSRVRelease f => (none, PVRSRVRelease B f s)

/-- The state after a finite sequence of session calls, first call first. -/
def sessRun (B : Build) (s : State) (cs : List SessCall) : State :=
  cs.foldl (fun s c => (sessStep B s c).2) s

/-- How many `PVRSRVOpen` calls of the sequence return `0`. -/
def opensReturningZero (B : Build) : State → List SessCall → Nat
  | _, [] => 0
  | s, c :: cs =>
    (if (sessStep B s c).1 = some 0 then 1 else 0) + opensReturningZero B (sessStep B s c).2 cs

/-- How many `PVRSRVRelease` calls the sequence has. -/
def releaseCalls : List SessCall → Nat
  | [] => 0
  | .PVRSRVOpen _ _ _ :: cs => releaseCalls cs
  | .PVRSRVRelease _ :: cs => 1 + releaseCalls cs

/-- The discipline the host keeps: every `PVRSRVRelease` is for a session
(named by its `drm_file`) that an earlier `PVRSRVOpen` returning `0` opened and
that has not been released since.  `live` lists the sessions open so far. -/
def releasesMatchOpens (B : Build) : List Ptr → State → List SessCall → Bool
  | _, _, [] => true
  | live, s, .PVRSRVOpen f g r :: cs =>
    releasesMatchOpens B (if (PVRSRVOpen B f g r s).1 = 0 then f :: live else live)
      (PVRSRVOpen B f g r s).2 cs
  | live, s, .PVRSRVRelease f :: cs =>
    decide (f ∈ live) && releasesMatchOpens B (live.erase f) (PVRSRVRelease B f s) cs

/-- The calls `PVRCore_Init` makes itself, in one build.  `PVRSRVInit` is one
of them only under `SUPPORT_DRM_EXT`; in the other build it can only be logged
by a wrapper the framework calls back during a probe. -/
def Event.isLoadStep (B : Build) : Event → Bool
  | .dbgdrv_init _ => true
  | .PVRSRVDriverInit _ => true
  | .drm_pci_init _ => true
  | .PVRSRVInit _ _ => B.SUPPORT_DRM_EXT
  | .PVRSRVDeviceInit _ => true
  | _ => false

/-- The value a logged call returned; `0` for a call whose result the file
does not read. -/
def Event.ret : Event → Int
  | .PVRSRVInit _ r => r
  | .drm_get_pci_dev _ _ r => r
  | .PVRSRVCommonOpen _ r => r
  | .dbgdrv_init r => r
  | .PVRSRVDriverInit r => r
  | .drm_pci_init r => r
  | .PVRSRVDeviceInit r => r
  | _ => 0

@[simp]
theorem emit_trace (s : State) (e : Event) : (s.emit e).trace = s.trace ++ [e] := rfl

@[simp]
theorem emit_bCalledSysInit (s : State) (e : Event) :
    (s.emit e).bCalledSysInit = s.bCalledSysInit := rfl

@[simp]
theorem emit_bDriverProbeSucceeded (s : State) (e : Event) :
    (s.emit e).bDriverProbeSucceeded = s.bDriverProbeSucceeded := rfl

@[simp]
theorem emit_gpsPVRLDMDev (s : State) (e : Event) :
    (s.emit e).gpsPVRLDMDev = s.gpsPVRLDMDev := rfl

@[simp]
theorem emit_refcnt (s : State) (e : Event) : (s.emit e).refcnt = s.refcnt := rfl

/-- A property kept by every step is kept by a whole left fold. -/
theorem foldl_keeps {σ α : Type} (P : σ → Prop) (f : σ → α → σ)
    (h : ∀ s a, P s → P (f s a)) (l : List α) (s : σ) (hs : P s) : P (l.foldl f s) := by
  induction l generalizing s with
  | nil => exact hs
  | cons a l ih => exact ih (f s a) (h s a hs)

/-! ## `bCalledSysInit` is never cleared -/

theorem PVRSRVSystemInit_sets_called (B : Build) (d : drm_device) (r : Int) (s : State) :
    (PVRSRVSystemInit B d r s).2.bCalledSysInit = true := by
  unfold PVRSRVSystemInit
  cases h : s.bCalledSysInit
  · simp only [↓reduceIte]
    split_ifs <;> rfl
  · simp [h]

theorem PVRSRVSystemDeInit_called (p : Ptr) (s : State) :
    (PVRSRVSystemDeInit p s).bCalledSysInit = s.bCalledSysInit := rfl

theorem sysStep_keeps_called (B : Build) (s : State) (c : SysCall)
    (h : s.bCalledSysInit = true) : (sysStep B s c).bCalledSysInit = true := by
  cases c with
  | init d r => exact PVRSRVSystemInit_sets_called B d r s
  | deinit p => simpa [sysStep, PVRSRVSystemDeInit_called] using h

theorem sysRun_keeps_called (B : Build) (s : State) (cs : List SysCall)
    (h : s.bCalledSysInit = true) : (sysRun B s cs).bCalledSysInit = true :=
  foldl_keeps (fun s => s.bCalledSysInit = true) (sysStep B) (sysStep_keeps_called B) cs s h

theorem PVRSRVDriverProbe_keeps_called (B : Build) (p i : Ptr) (o : GetPciDevOutcome)
    (s : State) (h : s.bCalledSysInit = true) :
    (PVRSRVDriverProbe B p i o s).2.bCalledSysInit = true := by
  unfold PVRSRVDriverProbe
  cases hB : B.SUPPORT_DRM_EXT
  · simpa using sysRun_keeps_called B _ o.callbacks (by simpa using h)
  · simpa using h

theorem PVRSRVDriverRemove_keeps_called (B : Build) (p : Ptr) (o : PutDevOutcome)
    (s : State) (h : s.bCalledSysInit = true) :
    (PVRSRVDriverRemove B p o s).bCalledSysInit = true := by
  unfold PVRSRVDriverRemove
  cases hB : B.SUPPORT_DRM_EXT
  · simpa using sysRun_keeps_called B _ o.callbacks (by simpa using h)
  · simpa [PVRSRVSystemDeInit_called] using h

theorem runProbes_keeps_called (B : Build) (s : State) (ps : List ProbeCall)
    (h : s.bCalledSysInit = true) : (runProbes B s ps).bCalledSysInit = true :=
  foldl_keeps (fun s => s.bCalledSysInit = true) _
    (fun s p hs => PVRSRVDriverProbe_keeps_called B p.pDevice p.pID p.outcome s hs) ps s h

theorem runRemoves_keeps_called (B : Build) (s : State) (rs : List RemoveCall)
    (h : s.bCalledSysInit = true) : (runRemoves B s rs).bCalledSysInit = true :=
  foldl_keeps (fun s => s.bCalledSysInit = true) _
    (fun s r hs => PVRSRVDriverRemove_keeps_called B r.pDevice r.outcome s hs) rs s h

theorem PVRSRVOpen_called (B : Build) (f : Ptr) (g : Bool) (r : Int) (s : State) :
    (PVRSRVOpen B f g r s).2.bCalledSysInit = s.bCalledSysInit := by
  unfold PVRSRVOpen try_module_get module_put
  cases g
  · simp
  · by_cases hr : r = 0 <;> simp [hr]

theorem PVRSRVRelease_called (B : Build) (f : Ptr) (s : State) :
    (PVRSRVRelease B f s).bCalledSysInit = s.bCalledSysInit := rfl

/-- Every way out of the first block of `PVRCore_Init` leaves `bCalledSysInit` set
if it was set. -/
theorem upToAttachCheck_keeps_called (B : Build) (o : InitOutcome) (s : State)
    (h : s.bCalledSysInit = true) :
    match PVRCore_Init_upToAttachCheck B o s with
    | .returned _ s1 => s1.bCalledSysInit = true
    | .goesOn _ s1 => s1.bCalledSysInit = true := by
  have hp : ∀ t : State, t.bCalledSysInit = true →
      (runProbes B t o.probes).bCalledSysInit = true :=
    fun t ht => runProbes_keeps_called B t o.probes ht
  unfold PVRCore_Init_upToAttachCheck
  cases hP : B.PDUMP <;> cases hE : B.SUPPORT_DRM_EXT <;>
    cases hF : s.bDriverProbeSucceeded <;>
    by_cases h1 : o.dbgdrv_init = 0 <;> by_cases h2 : o.PVRSRVDriverInit = 0 <;>
    by_cases h3 : o.drm_pci_init = 0 <;> by_cases h4 : o.PVRSRVInit = 0 <;>
    simp [h, hp, hF, h1, h2, h3, h4]

theorem PVRCore_Init_keeps_called (B : Build) (o : InitOutcome) (s : State)
    (h : s.bCalledSysInit = true) : (PVRCore_Init B o s).2.bCalledSysInit = true := by
  have hu := upToAttachCheck_keeps_called B o s h
  unfold PVRCore_Init
  cases hf : PVRCore_Init_upToAttachCheck B o s with
  | returned e s1 => simpa [hf] using hu
  | goesOn e s1 =>
    rw [hf] at hu
    simp only
    split_ifs <;> simpa using hu

theorem PVRCore_Cleanup_keeps_called (B : Build) (o : CleanupOutcome) (s : State)
    (h : s.bCalledSysInit = true) : (PVRCore_Cleanup B o s).bCalledSysInit = true := by
  have hr : ∀ t : State, t.bCalledSysInit = true →
      (runRemoves B t o.removes).bCalledSysInit = true :=
    fun t ht => runRemoves_keeps_called B t o.removes ht
  unfold PVRCore_Cleanup
  cases hP : B.PDUMP <;> cases hE : B.SUPPORT_DRM_EXT <;> simp [h, hr]

theorem opStep_keeps_called (B : Build) (s : State) (op : Op)
    (h : s.bCalledSysInit = true) : (opStep B s op).bCalledSysInit = true := by
  cases op with
  | PVRSRVSystemInit d r => exact PVRSRVSystemInit_sets_called B d r s
  | PVRSRVSystemDeInit p => simpa [opStep, PVRSRVSystemDeInit_called] using h
  | PVRSRVDriverProbe p i o => exact PVRSRVDriverProbe_keeps_called B p i o s h
  | PVRSRVDriverRemove p o => exact PVRSRVDriverRemove_keeps_called B p o s h
  | PVRSRVOpen f g r => simpa [opStep, PVRSRVOpen_called] using h
  | PVRSRVRelease f => simpa [opStep, PVRSRVRelease_called] using h
  | PVRCore_Init o => exact PVRCore_Init_keeps_called B o s h
  | PVRCore_Cleanup o => exact PVRCore_Cleanup_keeps_called B o s h

/-! ## `PVRSRVInit` through the wrapper -/

theorem sysStep_initCalls_called (B : Build) (s : State) (c : SysCall)
    (h : s.bCalledSysInit = true) : initCalls (sysStep B s c) = initCalls s := by
  cases c with
  | init d r => simp [sysStep, PVRSRVSystemInit, h]
  | deinit p => simp [sysStep, PVRSRVSystemDeInit, initCalls, Event.isPVRSRVInit]

theorem sysRun_initCalls_called (B : Build) (cs : List SysCall) :
    ∀ s : State, s.bCalledSysInit = true → initCalls (sysRun B s cs) = initCalls s := by
  induction cs with
  | nil => intro s _; rfl
  | cons c cs ih =>
    intro s h
    have h1 := ih (sysStep B s c) (sysStep_keeps_called B s c h)
    simpa [sysRun, sysStep_initCalls_called B s c h] using h1

theorem sysRun_initCalls_le (B : Build) (cs : List SysCall) :
    ∀ s : State, initCalls (sysRun B s cs) ≤ initCalls s + 1 := by
  induction cs with
  | nil => intro s; simp [sysRun]
  | cons c cs ih =>
    intro s
    cases hc : s.bCalledSysInit with
    | true =>
      have := sysRun_initCalls_called B (c :: cs) s hc
      omega
    | false =>
      cases c with
      | init d r =>
        have hs : (sysStep B s (.init d r)).bCalledSysInit = true :=
          PVRSRVSystemInit_sets_called B d r s
        have h1 := sysRun_initCalls_called B cs _ hs
        have h2 : initCalls (sysStep B s (.init d r)) = initCalls s + 1 := by
          simp only [sysStep, PVRSRVSystemInit, hc]
          split_ifs <;> simp [initCalls, Event.isPVRSRVInit]
        have h3 : sysRun B s (.init d r :: cs) = sysRun B (sysStep B s (.init d r)) cs := rfl
        rw [h3, h1, h2]
      | deinit p =>
        have h2 : initCalls (sysStep B s (.deinit p)) = initCalls s := by
          simp [sysStep, PVRSRVSystemDeInit, initCalls, Event.isPVRSRVInit]
        have h3 : sysRun B s (.deinit p :: cs) = sysRun B (sysStep B s (.deinit p)) cs := rfl
        rw [h3]
        have := ih (sysStep B s (.deinit p))
        omega

/-- Each wrapper call keeps the number of `PVRSRVInit` invocations, plus one
while `bCalledSysInit` is still clear, from growing. -/
theorem sysStep_budget (B : Build) (s : State) (c : SysCall) :
    initCalls (sysStep B s c) + (if (sysStep B s c).bCalledSysInit then 0 else 1) ≤
      initCalls s + (if s.bCalledSysInit then 0 else 1) := by
  cases c with
  | init d r =>
    cases hc : s.bCalledSysInit
    · by_cases hr : r = B.PVRSRV_OK <;>
        simp [sysStep, PVRSRVSystemInit, hc, hr, initCalls, Event.isPVRSRVInit]
    · simp [sysStep, PVRSRVSystemInit, hc]
  | deinit p =>
    simp [sysStep, PVRSRVSystemDeInit, initCalls, Event.isPVRSRVInit]

theorem sysRun_budget (B : Build) (s : State) (cs : List SysCall) :
    initCalls (sysRun B s cs) + (if (sysRun B s cs).bCalledSysInit then 0 else 1) ≤
      initCalls s + (if s.bCalledSysInit then 0 else 1) :=
  foldl_keeps
    (fun t => initCalls t + (if t.bCalledSysInit then 0 else 1) ≤
      initCalls s + (if s.bCalledSysInit then 0 else 1))
    (sysStep B) (fun t c ht => le_trans (sysStep_budget B t c) ht) cs s (le_refl _)

theorem PVRSRVDriverProbe_budget (B : Build) (p i : Ptr) (o : GetPciDevOutcome) (s : State) :
    initCalls (PVRSRVDriverProbe B p i o s).2 +
        (if (PVRSRVDriverProbe B p i o s).2.bCalledSysInit then 0 else 1) ≤
      initCalls s + (if s.bCalledSysInit then 0 else 1) := by
  unfold PVRSRVDriverProbe
  cases hB : B.SUPPORT_DRM_EXT
  · have h := sysRun_budget B (s.emit (.drm_get_pci_dev p i o.ret)) o.callbacks
    have h0 : initCalls (s.emit (.drm_get_pci_dev p i o.ret)) = initCalls s := by
      simp [initCalls, Event.isPVRSRVInit]
    rw [h0] at h
    simpa [initCalls] using h
  · simp [initCalls]

theorem runProbes_budget (B : Build) (s : State) (ps : List ProbeCall) :
    initCalls (runProbes B s ps) + (if (runProbes B s ps).bCalledSysInit then 0 else 1) ≤
      initCalls s + (if s.bCalledSysInit then 0 else 1) :=
  foldl_keeps
    (fun t => initCalls t + (if t.bCalledSysInit then 0 else 1) ≤
      initCalls s + (if s.bCalledSysInit then 0 else 1))
    _ (fun t p ht => le_trans (PVRSRVDriverProbe_budget B p.pDevice p.pID p.outcome t) ht)
    ps s (le_refl _)

/-! ## How the log grows -/

theorem Grows.refl (P : Event → Prop) (s : State) : Grows P s s :=
  ⟨[], by simp, by simp⟩

theorem Grows.trans {P : Event → Prop} {s t u : State} (h1 : Grows P s t) (h2 : Grows P t u) :
    Grows P s u := by
  obtain ⟨n1, e1, p1⟩ := h1
  obtain ⟨n2, e2, p2⟩ := h2
  refine ⟨n1 ++ n2, by rw [e2, e1, List.append_assoc], ?_⟩
  intro e he
  rcases List.mem_append.mp he with h | h
  · exact p1 e h
  · exact p2 e h

theorem Grows.mono {P Q : Event → Prop} {s t : State} (h : Grows P s t)
    (hPQ : ∀ e, P e → Q e) : Grows Q s t := by
  obtain ⟨n, e, p⟩ := h
  exact ⟨n, e, fun x hx => hPQ x (p x hx)⟩

theorem Grows.emit {P : Event → Prop} (s : State) (e : Event) (h : P e) :
    Grows P s (s.emit e) :=
  ⟨[e], rfl, by simpa using h⟩

theorem Grows.of_trace_eq {P : Event → Prop} {s t u : State} (h : Grows P s t)
    (hu : u.trace = t.trace) : Grows P s u := by
  obtain ⟨n, e, p⟩ := h
  exact ⟨n, by rw [hu, e], p⟩

theorem emitted_of_append {s t : State} {n : List Event} (h : t.trace = s.trace ++ n) :
    emitted s t = n := by
  simp [emitted, h]

theorem sysStep_grows (B : Build) (s : State) (c : SysCall) :
    Grows (fun e => e.isSysEvent = true) s (sysStep B s c) := by
  cases c with
  | init d r =>
    simp only [sysStep, PVRSRVSystemInit]
    cases hc : s.bCalledSysInit
    · refine ⟨[.PVRSRVInit d.pdev r], ?_, by simp [Event.isSysEvent]⟩
      simp only [↓reduceIte]
      split_ifs <;> rfl
    · simpa using Grows.refl _ s
  | deinit p => exact ⟨[.PVRSRVDeInit p], rfl, by simp [Event.isSysEvent]⟩

theorem sysRun_grows (B : Build) (s : State) (cs : List SysCall) :
    Grows (fun e => e.isSysEvent = true) s (sysRun B s cs) :=
  foldl_keeps (fun t => Grows (fun e => e.isSysEvent = true) s t) (sysStep B)
    (fun t c ht => ht.trans (sysStep_grows B t c)) cs s (Grows.refl _ s)

theorem isSysEvent_isAttachEvent (e : Event) (h : e.isSysEvent = true) :
    e.isAttachEvent = true := by
  cases e <;> simp_all [Event.isSysEvent, Event.isAttachEvent]

theorem PVRSRVDriverProbe_grows (B : Build) (p i : Ptr) (o : GetPciDevOutcome) (s : State) :
    Grows (fun e => e.isAttachEvent = true) s (PVRSRVDriverProbe B p i o s).2 := by
  unfold PVRSRVDriverProbe
  cases hB : B.SUPPORT_DRM_EXT
  · have h1 : Grows (fun e => e.isAttachEvent = true) s (s.emit (.drm_get_pci_dev p i o.ret)) :=
      Grows.emit s _ (by simp [Event.isAttachEvent])
    have h2 := (sysRun_grows B (s.emit (.drm_get_pci_dev p i o.ret)) o.callbacks).mono
      isSysEvent_isAttachEvent
    exact (h1.trans h2).of_trace_eq (by simp)
  · exact (Grows.refl _ s).of_trace_eq (by simp)

theorem PVRSRVDriverRemove_grows (B : Build) (p : Ptr) (o : PutDevOutcome) (s : State) :
    Grows (fun e => e.isAttachEvent = true) s (PVRSRVDriverRemove B p o s) := by
  unfold PVRSRVDriverRemove
  cases hB : B.SUPPORT_DRM_EXT
  · have h1 : Grows (fun e => e.isAttachEvent = true) s (s.emit (.drm_put_dev p)) :=
      Grows.emit s _ (by simp [Event.isAttachEvent])
    have h2 := (sysRun_grows B (s.emit (.drm_put_dev p)) o.callbacks).mono
      isSysEvent_isAttachEvent
    simpa using h1.trans h2
  · exact ⟨[.PVRSRVDeInit p], rfl, by simp [Event.isAttachEvent, Event.isSysEvent]⟩

theorem runProbes_grows (B : Build) (s : State) (ps : List ProbeCall) :
    Grows (fun e => e.isAttachEvent = true) s (runProbes B s ps) :=
  foldl_keeps (fun t => Grows (fun e => e.isAttachEvent = true) s t) _
    (fun t p ht => ht.trans (PVRSRVDriverProbe_grows B p.pDevice p.pID p.outcome t)) ps s
    (Grows.refl _ s)

theorem runRemoves_grows (B : Build) (s : State) (rs : List RemoveCall) :
    Grows (fun e => e.isAttachEvent = true) s (runRemoves B s rs) :=
  foldl_keeps (fun t => Grows (fun e => e.isAttachEvent = true) s t) _
    (fun t r ht => ht.trans (PVRSRVDriverRemove_grows B r.pDevice r.outcome t)) rs s
    (Grows.refl _ s)

/-- The log `PVRCore_Cleanup` leaves: its own calls, with the events of the
removals between deregistration and services teardown. -/
theorem PVRCore_Cleanup_trace (B : Build) (o : CleanupOutcome) (s : State) :
    ∃ mid : List Event, (∀ e ∈ mid, e.isAttachEvent = true) ∧
      (PVRCore_Cleanup B o s).trace =
        s.trace ++ ([.PVRSRVDeviceDeinit,
          if B.SUPPORT_DRM_EXT then .pci_unregister_driver else .drm_pci_exit] ++ mid ++
          [.PVRSRVDriverDeinit] ++ (if B.PDUMP then [.dbgdrv_cleanup] else [])) := by
  unfold PVRCore_Cleanup
  cases hE : B.SUPPORT_DRM_EXT
  · obtain ⟨mid, hm, hp⟩ := runRemoves_grows B
      ((s.emit .PVRSRVDeviceDeinit).emit .drm_pci_exit) o.removes
    refine ⟨mid, hp, ?_⟩
    cases hP : B.PDUMP <;> simp [hm]
  · obtain ⟨mid, hm, hp⟩ := runRemoves_grows B
      ((s.emit .PVRSRVDeviceDeinit).emit .pci_unregister_driver) o.removes
    refine ⟨mid, hp, ?_⟩
    cases hP : B.PDUMP <;> simp [hm]

theorem filter_teardown_attach (mid : List Event) (h : ∀ e ∈ mid, e.isAttachEvent = true) :
    mid.filter Event.isTeardownStep = [] := by
  rw [List.filter_eq_nil_iff]
  intro e he
  have := h e he
  cases e <;> simp_all [Event.isTeardownStep, Event.isAttachEvent, Event.isSysEvent]

theorem PVRCore_Cleanup_steps (B : Build) (o : CleanupOutcome) (s : State) :
    (emitted s (PVRCore_Cleanup B o s)).filter Event.isTeardownStep = teardownPlan B := by
  obtain ⟨mid, hmid, ht⟩ := PVRCore_Cleanup_trace B o s
  rw [emitted_of_append ht]
  have hf := filter_teardown_attach mid hmid
  cases hE : B.SUPPORT_DRM_EXT <;> cases hP : B.PDUMP <;>
    simp [List.filter_append, hf, teardownPlan, hE, hP, Event.isTeardownStep, List.filter_cons]

theorem opRun_keeps_called (B : Build) (s : State) (ops : List Op)
    (h : s.bCalledSysInit = true) : (opRun B s ops).bCalledSysInit = true :=
  foldl_keeps (fun s => s.bCalledSysInit = true) (opStep B) (opStep_keeps_called B) ops s h

/-! ## Sessions and the module reference count -/

theorem PVRSRVOpen_refcnt (B : Build) (f : Ptr) (g : Bool) (r : Int) (s : State)
    (hE : B.ENOENT ≠ 0) :
    (PVRSRVOpen B f g r s).2.refcnt =
      s.refcnt + (if (PVRSRVOpen B f g r s).1 = 0 then 1 else 0) := by
  cases g
  · simp [PVRSRVOpen, try_module_get, hE]
  · by_cases hr : r = 0
    · simp [PVRSRVOpen, try_module_get, hr]
    · simp [PVRSRVOpen, try_module_get, module_put, hr]

theorem PVRSRVRelease_refcnt (B : Build) (f : Ptr) (s : State) :
    (PVRSRVRelease B f s).refcnt = s.refcnt - 1 := rfl

theorem sessRun_cons (B : Build) (s : State) (c : SessCall) (cs : List SessCall) :
    sessRun B s (c :: cs) = sessRun B (sessStep B s c).2 cs := rfl

theorem sessRun_refcnt (B : Build) (hE : B.ENOENT ≠ 0) (cs : List SessCall) :
    ∀ s : State, (sessRun B s cs).refcnt =
      s.refcnt + (opensReturningZero B s cs : Int) - (releaseCalls cs : Int) := by
  induction cs with
  | nil => intro s; simp [sessRun, opensReturningZero, releaseCalls]
  | cons c cs ih =>
    intro s
    rw [sessRun_cons, ih]
    cases c with
    | PVRSRVOpen f g r =>
      have h := PVRSRVOpen_refcnt B f g r s hE
      simp only [sessStep, opensReturningZero, releaseCalls, h, Option.some.injEq]
      split_ifs <;> push_cast <;> ring
    | PVRSRVRelease f =>
      simp only [sessStep, opensReturningZero, releaseCalls, PVRSRVRelease_refcnt]
      simp only [reduceCtorEq, ↓reduceIte]
      push_cast
      ring

theorem sessRun_refcnt_ge (B : Build) (hE : B.ENOENT ≠ 0) (cs : List SessCall) :
    ∀ (live : List Ptr) (s : State), releasesMatchOpens B live s cs = true →
      s.refcnt - (live.length : Int) ≤ (sessRun B s cs).refcnt := by
  induction cs with
  | nil => intro live s _; simp [sessRun]
  | cons c cs ih =>
    intro live s h
    rw [sessRun_cons]
    cases c with
    | PVRSRVOpen f g r =>
      simp only [releasesMatchOpens] at h
      have h1 := ih _ _ h
      have h2 := PVRSRVOpen_refcnt B f g r s hE
      simp only [sessStep]
      by_cases hz : (PVRSRVOpen B f g r s).1 = 0
      · simp only [hz, ↓reduceIte, List.length_cons] at h1 h2
        push_cast at h1
        omega
      · simp only [hz, ↓reduceIte] at h1 h2
        omega
    | PVRSRVRelease f =>
      simp only [releasesMatchOpens, Bool.and_eq_true, decide_eq_true_eq] at h
      have h1 := ih _ _ h.2
      have h2 : (live.erase f).length = live.length - 1 := List.length_erase_of_mem h.1
      have h3 : 0 < live.length := List.length_pos_of_mem h.1
      simp only [sessStep]
      rw [PVRSRVRelease_refcnt] at h1
      omega

theorem releasesMatchOpens_initial_part (B : Build) (pre : List SessCall) :
    ∀ (cs : List SessCall) (live : List Ptr) (s : State), pre <+: cs →
      releasesMatchOpens B live s cs = true → releasesMatchOpens B live s pre = true := by
  induction pre with
  | nil => intro cs live s _ _; rfl
  | cons c pre ih =>
    intro cs live s hpre h
    cases cs with
    | nil => simp at hpre
    | cons c2 cs =>
      obtain ⟨hc, hrest⟩ := List.cons_prefix_cons.mp hpre
      subst hc
      cases c with
      | PVRSRVOpen f g r =>
        simp only [releasesMatchOpens] at h ⊢
        exact ih _ _ _ hrest h
      | PVRSRVRelease f =>
        simp only [releasesMatchOpens, Bool.and_eq_true, decide_eq_true_eq] at h ⊢
        exact ⟨h.1, ih _ _ _ hrest h.2⟩

/-! ## The load sequence -/

theorem filter_loadStep_attach (B : Build) (hE : B.SUPPORT_DRM_EXT = false) (mid : List Event)
    (h : ∀ e ∈ mid, e.isAttachEvent = true) : mid.filter (Event.isLoadStep B) = [] := by
  rw [List.filter_eq_nil_iff]
  intro e he
  have := h e he
  cases e <;> simp_all [Event.isLoadStep, Event.isAttachEvent, Event.isSysEvent]

theorem countP_deviceInit_attach (mid : List Event) (h : ∀ e ∈ mid, e.isAttachEvent = true) :
    mid.countP Event.isPVRSRVDeviceInit = 0 := by
  rw [List.countP_eq_zero]
  intro e he
  have := h e he
  cases e <;> simp_all [Event.isPVRSRVDeviceInit, Event.isAttachEvent, Event.isSysEvent]

/-- What holds when the first block of `PVRCore_Init` falls through to the
test of `bDriverProbeSucceeded`: the local `error` is `0`, the log has grown by
calls none of which is `PVRSRVDeviceInit` and whose load steps all returned
`0`, and under `SUPPORT_DRM_EXT` the flag is set. -/
theorem upToAttachCheck_goesOn (B : Build) (o : InitOutcome) (s : State) (error : Int)
    (s1 : State) (h : PVRCore_Init_upToAttachCheck B o s = .goesOn error s1) :
    error = 0 ∧
    (∃ new : List Event, s1.trace = s.trace ++ new ∧
      new.countP Event.isPVRSRVDeviceInit = 0 ∧
      ∀ e ∈ new.filter (Event.isLoadStep B), e.ret = 0) ∧
    (B.SUPPORT_DRM_EXT = true → s1.bDriverProbeSucceeded = true) := by
  obtain ⟨dbg, di, probes, reg, ini, dev⟩ := o
  unfold PVRCore_Init_upToAttachCheck at h
  cases hE : B.SUPPORT_DRM_EXT
  · cases hP : B.PDUMP
    · obtain ⟨mid, hm, hp⟩ := runProbes_grows B
        ((s.emit (.PVRSRVDriverInit di)).emit (.drm_pci_init reg)) probes
      have hf := filter_loadStep_attach B hE mid hp
      have hc := countP_deviceInit_attach mid hp
      rcases eq_or_ne di 0 with rfl | h2
      · rcases eq_or_ne reg 0 with rfl | h3
        · simp [*] at h
          obtain ⟨rfl, rfl⟩ := h
          refine ⟨rfl, ⟨[.PVRSRVDriverInit 0, .drm_pci_init 0] ++ mid, by simp [hm], ?_, ?_⟩,
            by simp⟩
          · simp [List.countP_append, List.countP_cons, hc, Event.isPVRSRVDeviceInit]
          · simp [List.filter_append, hf, hE, Event.isLoadStep, List.filter_cons, Event.ret]
        · simp [*] at h
      · simp [*] at h
    · obtain ⟨mid, hm, hp⟩ := runProbes_grows B
        (((s.emit (.dbgdrv_init dbg)).emit (.PVRSRVDriverInit di)).emit
          (.drm_pci_init reg)) probes
      have hf := filter_loadStep_attach B hE mid hp
      have hc := countP_deviceInit_attach mid hp
      rcases eq_or_ne dbg 0 with rfl | h1
      · rcases eq_or_ne di 0 with rfl | h2
        · rcases eq_or_ne reg 0 with rfl | h3
          · simp [*] at h
            obtain ⟨rfl, rfl⟩ := h
            refine ⟨rfl, ⟨[.dbgdrv_init 0, .PVRSRVDriverInit 0, .drm_pci_init 0] ++ mid,
              by simp [hm], ?_, ?_⟩, by simp⟩
            · simp [List.countP_append, List.countP_cons, hc, Event.isPVRSRVDeviceInit]
            · simp [List.filter_append, hf, hE, Event.isLoadStep, List.filter_cons, Event.ret]
          · simp [*] at h
        · simp [*] at h
      · simp [*] at h
  · cases hP : B.PDUMP
    · rcases eq_or_ne di 0 with rfl | h2
      · cases hF : s.bDriverProbeSucceeded
        · rcases eq_or_ne ini 0 with rfl | h4
          · simp [*] at h
            obtain ⟨rfl, rfl⟩ := h
            refine ⟨rfl, ⟨[.PVRSRVDriverInit 0, .PVRSRVInit s.gpsPVRLDMDev 0], by simp, ?_, ?_⟩,
              by simp⟩
            · simp [List.countP_append, List.countP_cons, Event.isPVRSRVDeviceInit]
            · simp [List.filter_append, hE, Event.isLoadStep, List.filter_cons, Event.ret]
          · simp [*] at h
        · simp [*] at h
          obtain ⟨rfl, rfl⟩ := h
          refine ⟨rfl, ⟨[.PVRSRVDriverInit 0], by simp, ?_, ?_⟩, by simp [hF]⟩
          · simp [List.countP_append, List.countP_cons, Event.isPVRSRVDeviceInit]
          · simp [List.filter_append, hE, Event.isLoadStep, List.filter_cons, Event.ret]
      · simp [*] at h
    · rcases eq_or_ne dbg 0 with rfl | h1
      · rcases eq_or_ne di 0 with rfl | h2
        · cases hF : s.bDriverProbeSucceeded
          · rcases eq_or_ne ini 0 with rfl | h4
            · simp [*] at h
              obtain ⟨rfl, rfl⟩ := h
              refine ⟨rfl, ⟨[.dbgdrv_init 0, .PVRSRVDriverInit 0,
                .PVRSRVInit s.gpsPVRLDMDev 0], by simp, ?_, ?_⟩, by simp⟩
              · simp [List.countP_append, List.countP_cons, Event.isPVRSRVDeviceInit]
              · simp [List.filter_append, hE, Event.isLoadStep, List.filter_cons, Event.ret]
            · simp [*] at h
          · simp [*] at h
            obtain ⟨rfl, rfl⟩ := h
            refine ⟨rfl, ⟨[.dbgdrv_init 0, .PVRSRVDriverInit 0], by simp, ?_, ?_⟩, by simp [hF]⟩
            · simp [List.countP_append, List.countP_cons, Event.isPVRSRVDeviceInit]
            · simp [List.filter_append, hE, Event.isLoadStep, List.filter_cons, Event.ret]
        · simp [*] at h
      · simp [*] at h

/-- C1: in every finite sequence of `PVRSRVSystemInit` and `PVRSRVSystemDeInit`
calls, whatever `PVRSRVInit` returns, `PVRSRVInit` is invoked at most once when
the sequence starts from the load-time state; from any state at most one more
invocation is logged, and none once `bCalledSysInit` is set.  The same bound
holds when the wrapper calls come from the framework during any sequence of
probes.  No sequence of calls of functions of the file clears `bCalledSysInit`
once it is set. -/
theorem PVRSRVInit_invoked_at_most_once (B : Build) (cs : List SysCall) (s : State)
    (ops : List Op) (ps : List ProbeCall) :
    initCalls (sysRun B loadState cs) ≤ 1 ∧
    initCalls (sysRun B s cs) ≤ initCalls s + 1 ∧
    (s.bCalledSysInit = true → initCalls (sysRun B s cs) = initCalls s) ∧
    initCalls (runProbes B loadState ps) ≤ 1 ∧
    (s.bCalledSysInit = true → (opRun B s ops).bCalledSysInit = true) := by
  refine ⟨?_, sysRun_initCalls_le B cs s, sysRun_initCalls_called B cs s, ?_,
    opRun_keeps_called B s ops⟩
  · simpa [initCalls, loadState] using sysRun_initCalls_le B cs loadState
  · have h := runProbes_budget B loadState ps
    have h0 : initCalls loadState + (if loadState.bCalledSysInit then 0 else 1) = 1 := rfl
    omega

/-- Instance of C1: a failed initialisation, a deinitialisation and a second
initialisation log one `PVRSRVInit`; a load, probe, removal and unload do not
clear the flag. -/
theorem PVRSRVInit_invoked_at_most_once_witness :
    initCalls (sysRun plainBuild loadState [.init ⟨7⟩ 1, .deinit 7, .init ⟨7⟩ 0]) ≤ 1 ∧
    (PVRSRVSystemInit plainBuild ⟨7⟩ 0 loadState).2.bCalledSysInit = true ∧
    (opRun plainBuild (PVRSRVSystemInit plainBuild ⟨7⟩ 0 loadState).2
      [.PVRCore_Init ⟨0, 0, [⟨7, 1, ⟨[.init ⟨7⟩ 0], 0⟩⟩], 0, 0, 0⟩,
       .PVRSRVDriverRemove 7 ⟨[.deinit 7]⟩,
       .PVRCore_Cleanup ⟨[]⟩]).bCalledSysInit = true :=
  ⟨(PVRSRVInit_invoked_at_most_once plainBuild [.init ⟨7⟩ 1, .deinit 7, .init ⟨7⟩ 0]
      loadState [] []).1,
   by decide,
   (PVRSRVInit_invoked_at_most_once plainBuild [] _ _ []).2.2.2.2 (by decide)⟩

/-- C7, as the code has it: when `PVRSRVInit` fails inside `PVRSRVSystemInit`,
the call returns `-ENODEV` with `bCalledSysInit` already set (it is set before
`PVRSRVInit` is invoked), so the next `PVRSRVSystemInit` call returns `0`
without invoking `PVRSRVInit`; the first call sets the flag whatever
`PVRSRVInit` returns. -/
theorem PVRSRVSystemInit_failure_sets_flag (B : Build) (d : drm_device) (r : Int) (s : State)
    (hs : s.bCalledSysInit = false) (hr : r ≠ B.PVRSRV_OK) :
    (PVRSRVSystemInit B d r s).1 = -B.ENODEV ∧
    (PVRSRVSystemInit B d r s).2.bCalledSysInit = true ∧
    (PVRSRVSystemInit B d r s).2.trace = s.trace ++ [.PVRSRVInit d.pdev r] ∧
    (∀ (d2 : drm_device) (r2 : Int),
      PVRSRVSystemInit B d2 r2 (PVRSRVSystemInit B d r s).2 =
        (0, (PVRSRVSystemInit B d r s).2)) ∧
    (∀ r0 : Int, (PVRSRVSystemInit B d r0 s).2.bCalledSysInit = true) := by
  refine ⟨?_, ?_, ?_, ?_, ?_⟩
  · simp [PVRSRVSystemInit, hs, hr]
  · exact PVRSRVSystemInit_sets_called B d r s
  · simp [PVRSRVSystemInit, hs, hr]
  · intro d2 r2
    have h := PVRSRVSystemInit_sets_called B d r s
    generalize (PVRSRVSystemInit B d r s).2 = t at h
    simp [PVRSRVSystemInit, h]
  · intro r0
    exact PVRSRVSystemInit_sets_called B d r0 s

/-- Instance of the amended C7 on the load-time state with `PVRSRVInit`
returning `1`. -/
theorem PVRSRVSystemInit_failure_sets_flag_witness :
    (PVRSRVSystemInit plainBuild ⟨7⟩ 1 loadState).1 = -19 ∧
    (PVRSRVSystemInit plainBuild ⟨7⟩ 1 loadState).2.bCalledSysInit = true :=
  ⟨(PVRSRVSystemInit_failure_sets_flag plainBuild ⟨7⟩ 1 loadState (by decide) (by decide)).1,
   (PVRSRVSystemInit_failure_sets_flag plainBuild ⟨7⟩ 1 loadState (by decide) (by decide)).2.1⟩

/-- C7 as stated fails: from the load-time state, with `PVRSRVInit` returning
the error `1`, `PVRSRVSystemInit` returns `-ENODEV = -19` and leaves
`bCalledSysInit` true, and a second call, for which `PVRSRVInit` would succeed,
returns `0` with no further `PVRSRVInit` in the log. -/
theorem PVRSRVSystemInit_no_retry_after_failure :
    PVRSRVSystemInit plainBuild ⟨7⟩ 1 loadState =
      (-19, { bCalledSysInit := true, bDriverProbeSucceeded := false, gpsPVRLDMDev := 7,
              refcnt := 0, trace := [.PVRSRVInit 7 1] }) ∧
    PVRSRVSystemInit plainBuild ⟨7⟩ 0 (PVRSRVSystemInit plainBuild ⟨7⟩ 1 loadState).2 =
      (0, { bCalledSysInit := true, bDriverProbeSucceeded := false, gpsPVRLDMDev := 7,
            refcnt := 0, trace := [.PVRSRVInit 7 1] }) := by
  decide

/-- C8, as the code has it (build without `SUPPORT_DRM_EXT`): each
`PVRSRVDriverProbe` call returns the result of `drm_get_pci_dev` unchanged and
assigns `bDriverProbeSucceeded` the value `result == 0`, so a call whose
binding fails sets the flag to false; after a sequence of probes the flag
tells whether the last probe returned `0`, and after no probe it keeps its
initial value. -/
theorem PVRSRVDriverProbe_records_last_result (B : Build) (s : State) (ps : List ProbeCall)
    (hB : B.SUPPORT_DRM_EXT = false) :
    (∀ (p i : Ptr) (o : GetPciDevOutcome) (t : State),
      (PVRSRVDriverProbe B p i o t).1 = o.ret ∧
      (PVRSRVDriverProbe B p i o t).2.bDriverProbeSucceeded = decide (o.ret = 0)) ∧
    (runProbes B s ps).bDriverProbeSucceeded =
      (match ps.getLast? with
       | none => s.bDriverProbeSucceeded
       | some p => decide (p.outcome.ret = 0)) := by
  have h1 : ∀ (p i : Ptr) (o : GetPciDevOutcome) (t : State),
      (PVRSRVDriverProbe B p i o t).1 = o.ret ∧
      (PVRSRVDriverProbe B p i o t).2.bDriverProbeSucceeded = decide (o.ret = 0) := by
    intro p i o t
    simp [PVRSRVDriverProbe, hB]
  refine ⟨h1, ?_⟩
  induction ps using List.reverseRecOn with
  | nil => rfl
  | append_singleton ps p _ =>
    have hrun : runProbes B s (ps ++ [p]) =
        (PVRSRVDriverProbe B p.pDevice p.pID p.outcome (runProbes B s ps)).2 := by
      simp [runProbes, List.foldl_append]
    rw [hrun, (h1 p.pDevice p.pID p.outcome (runProbes B s ps)).2]
    simp

/-- Instance of the amended C8: a successful probe followed by a failed one. -/
theorem PVRSRVDriverProbe_records_last_result_witness :
    plainBuild.SUPPORT_DRM_EXT = false ∧
    (runProbes plainBuild loadState
      [⟨1, 2, ⟨[], 0⟩⟩, ⟨3, 2, ⟨[], -19⟩⟩]).bDriverProbeSucceeded = false :=
  ⟨rfl, (PVRSRVDriverProbe_records_last_result plainBuild loadState
      [⟨1, 2, ⟨[], 0⟩⟩, ⟨3, 2, ⟨[], -19⟩⟩] rfl).2⟩

/-- C8 as stated fails: in the build without `SUPPORT_DRM_EXT`, starting from
`bDriverProbeSucceeded = false`, a probe that returns `0` followed by a probe
whose binding fails with `-19` leaves the flag false although one probe
returned `0`; the failing call changed the flag from true to false. -/
theorem PVRSRVDriverProbe_failure_clears_flag :
    (PVRSRVDriverProbe plainBuild 1 2 ⟨[], 0⟩ loadState).1 = 0 ∧
    (PVRSRVDriverProbe plainBuild 1 2 ⟨[], 0⟩ loadState).2.bDriverProbeSucceeded = true ∧
    (PVRSRVDriverProbe plainBuild 3 2 ⟨[], -19⟩
      (PVRSRVDriverProbe plainBuild 1 2 ⟨[], 0⟩ loadState).2).1 = -19 ∧
    (PVRSRVDriverProbe plainBuild 3 2 ⟨[], -19⟩
      (PVRSRVDriverProbe plainBuild 1 2 ⟨[], 0⟩ loadState).2).2.bDriverProbeSucceeded = false ∧
    (runProbes plainBuild loadState
      [⟨1, 2, ⟨[], 0⟩⟩, ⟨3, 2, ⟨[], -19⟩⟩]).bDriverProbeSucceeded = false := by
  decide

/-- C4: `PVRSRVOpen` returns non-zero exactly when `try_module_get` fails or
`PVRSRVCommonOpen` returns non-zero, and then the reference count is what it
was before the call.  When `try_module_get` fails the result is `-ENOENT`, the
only collaborator invoked is `try_module_get` and no reference is taken; when
it succeeds and `PVRSRVCommonOpen` returns `err ≠ 0`, the result is `err` and
`module_put` is invoked after `PVRSRVCommonOpen`. -/
theorem PVRSRVOpen_failure_keeps_refcnt (B : Build) (f : Ptr) (g : Bool) (r : Int) (s : State)
    (hE : B.ENOENT ≠ 0) :
    ((PVRSRVOpen B f g r s).1 ≠ 0 ↔ (g = false ∨ r ≠ 0)) ∧
    ((PVRSRVOpen B f g r s).1 ≠ 0 → (PVRSRVOpen B f g r s).2.refcnt = s.refcnt) ∧
    (g = false → PVRSRVOpen B f g r s = (-B.ENOENT, s.emit (.try_module_get false))) ∧
    (g = true → r ≠ 0 →
      (PVRSRVOpen B f g r s).1 = r ∧
      (PVRSRVOpen B f g r s).2.refcnt = s.refcnt ∧
      (PVRSRVOpen B f g r s).2.trace = s.trace ++
        [.try_module_get true, .PVRSRVCommonOpen (B.PVR_FILE_FROM_DRM_FILE f) r,
         .module_put]) ∧
    (g = true → r = 0 →
      (PVRSRVOpen B f g r s).1 = 0 ∧
      (PVRSRVOpen B f g r s).2.refcnt = s.refcnt + 1) := by
  cases g
  · simp [PVRSRVOpen, try_module_get, hE]
  · by_cases hr : r = 0
    · simp [PVRSRVOpen, try_module_get, hr]
    · simp [PVRSRVOpen, try_module_get, module_put, hr]

/-- Instance of C4: the session open fails with `-5` after the module was
pinned. -/
theorem PVRSRVOpen_failure_keeps_refcnt_witness :
    plainBuild.ENOENT ≠ 0 ∧
    (PVRSRVOpen plainBuild 9 true (-5) loadState).1 = -5 ∧
    (PVRSRVOpen plainBuild 9 true (-5) loadState).2.refcnt = 0 :=
  ⟨by decide,
   ((PVRSRVOpen_failure_keeps_refcnt plainBuild 9 true (-5) loadState (by decide)).2.2.2.1
      rfl (by decide)).1,
   ((PVRSRVOpen_failure_keeps_refcnt plainBuild 9 true (-5) loadState (by decide)).2.2.2.1
      rfl (by decide)).2.1⟩

/-- C3: for every finite sequence of `PVRSRVOpen` and `PVRSRVRelease` calls
that starts with no reference held by sessions and in which every release is
for a session opened successfully before and not yet released, the reference
count after the sequence is the number of `PVRSRVOpen` calls that returned `0`
minus the number of `PVRSRVRelease` calls, it is non-negative after every
initial part of the sequence, every `PVRSRVRelease` lowers it by exactly one,
and two successful opens followed by one release leave it at `1`. -/
theorem session_refcnt_balance (B : Build) (s : State) (cs : List SessCall)
    (hE : B.ENOENT ≠ 0) (h0 : s.refcnt = 0) (hm : releasesMatchOpens B [] s cs = true) :
    (sessRun B s cs).refcnt = (opensReturningZero B s cs : Int) - (releaseCalls cs : Int) ∧
    (∀ pre : List SessCall, pre <+: cs → 0 ≤ (sessRun B s pre).refcnt) ∧
    (∀ (f : Ptr) (t : State), (PVRSRVRelease B f t).refcnt = t.refcnt - 1) ∧
    (∀ f1 f2 f3 : Ptr,
      (sessRun B s [.PVRSRVOpen f1 true 0, .PVRSRVOpen f2 true 0,
        .PVRSRVRelease f3]).refcnt = 1) := by
  refine ⟨?_, ?_, fun f t => PVRSRVRelease_refcnt B f t, ?_⟩
  · rw [sessRun_refcnt B hE cs s, h0]
    ring
  · intro pre hpre
    have h1 := releasesMatchOpens_initial_part B pre cs [] s hpre hm
    have h2 := sessRun_refcnt_ge B hE pre [] s h1
    simp only [List.length_nil, h0] at h2
    simpa using h2
  · intro f1 f2 f3
    simp [sessRun, sessStep, PVRSRVOpen, PVRSRVRelease, try_module_get, module_put, h0]

/-- Instance of C3: two successful opens, a failed open and one release, from
the load-time state. -/
theorem session_refcnt_balance_witness :
    plainBuild.ENOENT ≠ 0 ∧ loadState.refcnt = 0 ∧
    releasesMatchOpens plainBuild [] loadState
      [.PVRSRVOpen 11 true 0, .PVRSRVOpen 12 true 0, .PVRSRVOpen 13 true (-5),
       .PVRSRVRelease 11] = true ∧
    (sessRun plainBuild loadState
      [.PVRSRVOpen 11 true 0, .PVRSRVOpen 12 true 0, .PVRSRVOpen 13 true (-5),
       .PVRSRVRelease 11]).refcnt = 1 ∧
    (sessRun plainBuild loadState
      [.PVRSRVOpen 11 true 0, .PVRSRVOpen 12 true 0, .PVRSRVRelease 11]).refcnt = 1 :=
  ⟨by decide, rfl, by decide,
   by
    have h := (session_refcnt_balance plainBuild loadState
      [.PVRSRVOpen 11 true 0, .PVRSRVOpen 12 true 0, .PVRSRVOpen 13 true (-5),
       .PVRSRVRelease 11] (by decide) rfl (by decide)).1
    rw [h]
    decide,
   (session_refcnt_balance plainBuild loadState [] (by decide) rfl (by decide)).2.2.2 11 12 11⟩

/-- C5: for every state and every behaviour of the framework during
deregistration, the teardown calls `PVRCore_Cleanup` logs are exactly
`PVRSRVDeviceDeinit`, the deregistration (`drm_pci_exit`, or
`pci_unregister_driver` under `SUPPORT_DRM_EXT`), `PVRSRVDriverDeinit` and, when
`PDUMP` is defined, `dbgdrv_cleanup`, once each and in this order; the same
holds in the state any `PVRCore_Init` left, in particular one that failed in
`PVRSRVDeviceInit`.  The function is `void`: its embedding yields a state
only. -/
theorem PVRCore_Cleanup_runs_every_step (B : Build) (o : CleanupOutcome) (s : State)
    (oi : InitOutcome) :
    (PVRCore_Cleanup B o s).trace = s.trace ++ emitted s (PVRCore_Cleanup B o s) ∧
    (emitted s (PVRCore_Cleanup B o s)).filter Event.isTeardownStep = teardownPlan B ∧
    (emitted (PVRCore_Init B oi s).2
      (PVRCore_Cleanup B o (PVRCore_Init B oi s).2)).filter Event.isTeardownStep =
      teardownPlan B := by
  refine ⟨?_, PVRCore_Cleanup_steps B o s, PVRCore_Cleanup_steps B o _⟩
  obtain ⟨mid, _, ht⟩ := PVRCore_Cleanup_trace B o s
  rw [emitted_of_append ht, ht]

/-- C2: when `PVRCore_Init` reaches the test of `bDriverProbeSucceeded` (then
every earlier load step returned `0`, and `PVRSRVDeviceInit` has not been
invoked), `PVRSRVDeviceInit` is invoked if and only if the flag is true at
that point.  When it is true, `PVRSRVDeviceInit` is invoked exactly once and
its result is the return value; when it is false, which can only happen in the
build without `SUPPORT_DRM_EXT`, `PVRSRVDeviceInit` is not invoked,
`PVRCore_Init` returns `0` and the flag is still false. -/
theorem PVRCore_Init_attach_check (B : Build) (o : InitOutcome) (s : State) (error : Int)
    (s1 : State) (h : PVRCore_Init_upToAttachCheck B o s = .goesOn error s1) :
    error = 0 ∧
    (∀ e ∈ (emitted s s1).filter (Event.isLoadStep B), e.ret = 0) ∧
    deviceInitCalls s1 = deviceInitCalls s ∧
    (B.SUPPORT_DRM_EXT = true → s1.bDriverProbeSucceeded = true) ∧
    (s1.bDriverProbeSucceeded = true →
      PVRCore_Init B o s =
        (o.PVRSRVDeviceInit, s1.emit (.PVRSRVDeviceInit o.PVRSRVDeviceInit)) ∧
      deviceInitCalls (PVRCore_Init B o s).2 = deviceInitCalls s + 1) ∧
    (s1.bDriverProbeSucceeded = false →
      PVRCore_Init B o s = (0, s1) ∧
      deviceInitCalls (PVRCore_Init B o s).2 = deviceInitCalls s ∧
      (PVRCore_Init B o s).2.bDriverProbeSucceeded = false) := by
  obtain ⟨he, ⟨new, hn, hc, hz⟩, hx⟩ := upToAttachCheck_goesOn B o s error s1 h
  have hd : deviceInitCalls s1 = deviceInitCalls s := by
    simp [deviceInitCalls, hn, List.countP_append, hc]
  refine ⟨he, ?_, hd, hx, ?_, ?_⟩
  · rw [emitted_of_append hn]
    exact hz
  · intro hF
    have hr : PVRCore_Init B o s =
        (o.PVRSRVDeviceInit, s1.emit (.PVRSRVDeviceInit o.PVRSRVDeviceInit)) := by
      simp [PVRCore_Init, h, hF]
    refine ⟨hr, ?_⟩
    rw [hr, ← hd]
    simp [deviceInitCalls, List.countP_append, Event.isPVRSRVDeviceInit]
  · intro hF
    have hr : PVRCore_Init B o s = (0, s1) := by
      simp [PVRCore_Init, h, hF, he]
    refine ⟨hr, ?_, ?_⟩
    · rw [hr, ← hd]
    · rw [hr]
      exact hF

/-- Instance of C2 in the build without `SUPPORT_DRM_EXT`: with no probe the
check is reached with the flag false and the load returns `0`; with one
successful probe and `PVRSRVDeviceInit` returning `-12` the load returns
`-12`. -/
theorem PVRCore_Init_attach_check_witness :
    PVRCore_Init_upToAttachCheck plainBuild ⟨0, 0, [], 0, 0, 0⟩ loadState =
      .goesOn 0 { loadState with trace := [.PVRSRVDriverInit 0, .drm_pci_init 0] } ∧
    PVRCore_Init plainBuild ⟨0, 0, [], 0, 0, 0⟩ loadState =
      (0, { loadState with trace := [.PVRSRVDriverInit 0, .drm_pci_init 0] }) ∧
    (PVRCore_Init plainBuild ⟨0, 0, [⟨1, 2, ⟨[], 0⟩⟩], 0, 0, -12⟩ loadState).1 = -12 :=
  ⟨by decide,
   ((PVRCore_Init_attach_check plainBuild ⟨0, 0, [], 0, 0, 0⟩ loadState 0
      { loadState with trace := [.PVRSRVDriverInit 0, .drm_pci_init 0] }
      (by decide)).2.2.2.2.2 rfl).1,
   by
    have h := ((PVRCore_Init_attach_check plainBuild ⟨0, 0, [⟨1, 2, ⟨[], 0⟩⟩], 0, 0, -12⟩
      loadState 0
      { loadState with
        bDriverProbeSucceeded := true
        trace := [.PVRSRVDriverInit 0, .drm_pci_init 0, .drm_get_pci_dev 1 2 0] }
      (by decide)).2.2.2.2.1 rfl).1
    rw [h]⟩

/-- C9, as the code has it: when `PVRCore_Init` reaches the test of
`bDriverProbeSucceeded` with the flag false, it returns `0`, the success
value, and no `PVRSRVDeviceInit` is logged by the call; this happens only in
the build without `SUPPORT_DRM_EXT`. -/
theorem PVRCore_Init_no_device_returns_zero (B : Build) (o : InitOutcome) (s : State)
    (error : Int) (s1 : State)
    (h : PVRCore_Init_upToAttachCheck B o s = .goesOn error s1)
    (hF : s1.bDriverProbeSucceeded = false) :
    (PVRCore_Init B o s).1 = 0 ∧
    (∀ r : Int, Event.PVRSRVDeviceInit r ∉ emitted s (PVRCore_Init B o s).2) ∧
    B.SUPPORT_DRM_EXT = false := by
  obtain ⟨he, ⟨new, hn, hc, _⟩, hx⟩ := upToAttachCheck_goesOn B o s error s1 h
  have hr : PVRCore_Init B o s = (0, s1) := by
    simp [PVRCore_Init, h, hF, he]
  refine ⟨by rw [hr], ?_, ?_⟩
  · intro r hmem
    rw [hr, emitted_of_append hn] at hmem
    have := (List.countP_eq_zero.mp hc) _ hmem
    simp [Event.isPVRSRVDeviceInit] at this
  · cases hE : B.SUPPORT_DRM_EXT
    · rfl
    · have := hx hE
      rw [hF] at this
      cases this

/-- Instance of the amended C9: the only probe of the registration fails with
`-19`. -/
theorem PVRCore_Init_no_device_returns_zero_witness :
    (PVRCore_Init plainBuild ⟨0, 0, [⟨1, 2, ⟨[], -19⟩⟩], 0, 0, 0⟩ loadState).1 = 0 :=
  (PVRCore_Init_no_device_returns_zero plainBuild ⟨0, 0, [⟨1, 2, ⟨[], -19⟩⟩], 0, 0, 0⟩
    loadState 0
    { loadState with
      trace := [.PVRSRVDriverInit 0, .drm_pci_init 0, .drm_get_pci_dev 1 2 (-19)] }
    (by decide) rfl).1

/-- C9 as stated fails: in the build without `SUPPORT_DRM_EXT`, when every
load step returns `0` and no device is probed, `PVRCore_Init` reaches the test
with `bDriverProbeSucceeded` false and returns `0`, not an error. -/
theorem PVRCore_Init_no_device_is_success :
    PVRCore_Init_upToAttachCheck plainBuild ⟨0, 0, [], 0, 0, 0⟩ loadState =
      .goesOn 0 { bCalledSysInit := false, bDriverProbeSucceeded := false,
                  gpsPVRLDMDev := NULL, refcnt := 0,
                  trace := [.PVRSRVDriverInit 0, .drm_pci_init 0] } ∧
    PVRCore_Init plainBuild ⟨0, 0, [], 0, 0, 0⟩ loadState =
      (0, { bCalledSysInit := false, bDriverProbeSucceeded := false,
            gpsPVRLDMDev := NULL, refcnt := 0,
            trace := [.PVRSRVDriverInit 0, .drm_pci_init 0] }) := by
  decide

end DrmPciModule
